import Mathlib

/-!
# Verification of the weather-model repository

Shallow embedding of the two source files:

* `src/utils/nasa_power_api.py` — `fetch_nasa_power_data`, which reshapes a
  NASA POWER JSON response (a parameter-by-date mapping) into a table with a
  fixed 17-column schema.
* `src/03.02-model-prophet_test.py` — the forecast driver script: loading the
  training table, filtering to one city, sorting by date, resetting the index,
  renaming to `(ds, y)`, constructing and fitting a Prophet model, and building
  the extended future date index.

Machine floats in the JSON payload are modelled as rationals (`Rat`); Python
dict lookups that can fail are modelled with `Option`/`Except`.
-/

namespace WeatherModel

/-! ## Calendar model

`pandas.to_datetime(_, format="%Y%m%d")` and `Series.dt.dayofyear` operate on
Gregorian calendar dates; we model a date as a year/month/day triple.
-/

/-- A Gregorian calendar date, as produced by `pd.to_datetime(d, format="%Y%m%d")`. -/
structure Date where
  year : Nat
  month : Nat
  day : Nat
deriving DecidableEq, Repr

/-- Gregorian leap-year rule (as used by pandas datetime64 dates). -/
def isLeap (y : Nat) : Bool :=
  (y % 4 == 0 && y % 100 != 0) || (y % 400 == 0)

/-- Number of days of month `m` (1–12) in a year whose leap flag is `leap`;
`0` for an out-of-range month. -/
def daysInMonth (leap : Bool) (m : Nat) : Nat :=
  if m = 1 then 31
  else if m = 2 then (if leap then 29 else 28)
  else if m = 3 then 31
  else if m = 4 then 30
  else if m = 5 then 31
  else if m = 6 then 30
  else if m = 7 then 31
  else if m = 8 then 31
  else if m = 9 then 30
  else if m = 10 then 31
  else if m = 11 then 30
  else if m = 12 then 31
  else 0

/-- A date is valid when its month is 1–12 and its day fits the month. -/
def validDate (d : Date) : Bool :=
  1 ≤ d.month && d.month ≤ 12 && 1 ≤ d.day && d.day ≤ daysInMonth (isLeap d.year) d.month

/-- Ordinal day within the year as a function of the leap flag:
days of the full months before `m`, plus `d`.  This models the value pandas
computes for `Series.dt.dayofyear`. -/
def dayOfYearAux (leap : Bool) (m d : Nat) : Nat :=
  (List.range (m - 1)).foldl (fun acc i => acc + daysInMonth leap (i + 1)) 0 + d

/-- `Series.dt.dayofyear` for a single date (line 88 of the fetcher:
`df["day_of_year"] = df["date"].dt.dayofyear`). -/
def dayOfYear (dt : Date) : Nat :=
  dayOfYearAux (isLeap dt.year) dt.month dt.day

/-- The (month, day) pairs of all days of a year with leap flag `leap`,
in chronological order. -/
def monthDayList (leap : Bool) : List (Nat × Nat) :=
  (List.range 12).flatMap fun mi =>
    (List.range (daysInMonth leap (mi + 1))).map fun di => (mi + 1, di + 1)

/-- Spec-side definition of "the 1-indexed ordinal day of `date` within its
calendar year": one plus the position of the date's (month, day) pair in the
chronological list of the year's days. -/
def ordinalDayInYear (dt : Date) : Nat :=
  (monthDayList (isLeap dt.year)).indexOf (dt.month, dt.day) + 1

/-! ## Parsing `YYYYMMDD` date strings

Models `pd.to_datetime(dates, format="%Y%m%d")` (line 67 of the fetcher):
eight digits, split 4/2/2, rejected when the result is not a real calendar
date. -/

/-- Value of a list of decimal digit characters. -/
def digitsToNat (l : List Char) : Nat :=
  l.foldl (fun a c => 10 * a + (c.toNat - 48)) 0

/-- Parse one `YYYYMMDD` string to a `Date`; `none` models the exception
`pd.to_datetime` raises on malformed input. -/
def parseDate (s : String) : Option Date :=
  let cs := s.toList
  if cs.length = 8 ∧ cs.all Char.isDigit then
    let dt : Date :=
      { year := digitsToNat (cs.take 4)
        month := digitsToNat ((cs.drop 4).take 2)
        day := digitsToNat (cs.drop 6) }
    if validDate dt then some dt else none
  else none

/-! ## The NASA POWER response and `fetch_nasa_power_data` -/

/-- The `data["properties"]["parameter"]` block of the API response: one
date-keyed mapping per requested parameter.  Python's JSON decoding yields
dicts; we model each as an association list from date string to value
(insertion order = key order of `.keys()`). -/
structure ParamBlock where
  t2m : List (String × Rat)
  t2m_max : List (String × Rat)
  t2m_min : List (String × Rat)
  t2mdew : List (String × Rat)
  rh2m : List (String × Rat)
  ws10m : List (String × Rat)
  wd10m : List (String × Rat)
  ps : List (String × Rat)
  allsky_sw_dwn : List (String × Rat)
  allsky_lw_dwn : List (String × Rat)
  prectotcorr : List (String × Rat)
deriving DecidableEq, Repr

/-- Errors the reshaping code can raise: a `KeyError` from
`param_block[P][d]` (recording the parameter name and date), or a parse
error from `pd.to_datetime`. -/
inductive FetchError where
  | keyError (param : String) (date : String)
  | parseError (s : String)
deriving DecidableEq, Repr

/-- One row of the returned DataFrame, with the seventeen documented columns. -/
structure Row where
  date : Date
  location : String
  lat : Rat
  lon : Rat
  t2m : Rat
  t2m_max : Rat
  t2m_min : Rat
  t2m_range : Rat
  dewpoint : Rat
  rh2m : Rat
  ws10m : Rat
  wd10m : Rat
  ps : Rat
  allsky_sw_dwn : Rat
  allsky_lw_dwn : Rat
  prectotcorr : Rat
  day_of_year : Nat
deriving DecidableEq, Repr

/-- A pandas DataFrame, as the fetcher returns it: an ordered column-name
schema together with the list of rows. -/
structure Frame where
  cols : List String
  rows : List Row
deriving DecidableEq, Repr

/-- `pd.to_datetime(dates, format="%Y%m%d")` over the whole date list; the
first malformed string aborts the DataFrame construction. -/
def parseDates : List String → Except FetchError (List Date)
  | [] => .ok []
  | d :: ds =>
    match parseDate d with
    | none => .error (.parseError d)
    | some dt =>
      match parseDates ds with
      | .error e => .error e
      | .ok dts => .ok (dt :: dts)

/-- One column of the DataFrame: `[param_block[P][d] for d in dates]`.
A date missing from the parameter's mapping raises `KeyError` (recorded with
the parameter name `pname`). -/
def getColumn (tbl : List (String × Rat)) (pname : String) :
    List String → Except FetchError (List Rat)
  | [] => .ok []
  | d :: ds =>
    match tbl.lookup d with
    | none => .error (.keyError pname d)
    | some v =>
      match getColumn tbl pname ds with
      | .error e => .error e
      | .ok vs => .ok (v :: vs)

/-- The ten parameter mappings other than `T2M`, with their request names,
in the order the dict literal of step 3 reads them (lines 68–77). -/
def otherParams (pb : ParamBlock) : List (String × List (String × Rat)) :=
  [("T2M_MAX", pb.t2m_max), ("T2M_MIN", pb.t2m_min), ("T2MDEW", pb.t2mdew),
   ("RH2M", pb.rh2m), ("WS10M", pb.ws10m), ("WD10M", pb.wd10m),
   ("PS", pb.ps), ("ALLSKY_SFC_SW_DWN", pb.allsky_sw_dwn),
   ("ALLSKY_SFC_LW_DWN", pb.allsky_lw_dwn), ("PRECTOTCORR", pb.prectotcorr)]

/-- All eleven parameter mappings in the order the dict literal of step 3
reads them (lines 67–77): `T2M` first, then the other ten. -/
def paramsList (pb : ParamBlock) : List (String × List (String × Rat)) :=
  ("T2M", pb.t2m) :: otherParams pb

/-- Build the value columns one after another, in the order the dict
literal of step 3 evaluates its comprehensions; the first missing key
aborts with its `KeyError`. -/
def getColumnsL :
    List (String × List (String × Rat)) → List String →
      Except FetchError (List (List Rat))
  | [], _ => .ok []
  | q :: rest, dates =>
    match getColumn q.2 q.1 dates with
    | .error e => .error e
    | .ok c =>
      match getColumnsL rest dates with
      | .error e => .error e
      | .ok cs => .ok (c :: cs)

/-- The documented column schema, in the order of the reorder at step 6
(lines 91–109 of the fetcher). -/
def schemaCols : List String :=
  ["date", "location", "lat", "lon",
   "t2m", "t2m_max", "t2m_min", "t2m_range",
   "dewpoint", "rh2m", "ws10m", "wd10m", "ps",
   "allsky_sw_dwn", "allsky_lw_dwn", "prectotcorr",
   "day_of_year"]

/-- Assemble the DataFrame from the parsed dates and the value columns:
metadata columns from the call's arguments (step 4), `t2m_range` as the
columnwise difference `t2m_max - t2m_min` (step 5a), `day_of_year` from the
date column (step 5c), and the reordered schema (step 6).  Row `i` of the
frame is the `i`-th entry of every column. -/
def buildFrame (lat lon : Rat) (location : String)
    (dsL : List Date) (colsL : List (List Rat)) : Frame :=
  { cols := schemaCols
    rows := (List.range dsL.length).map fun i =>
      { date := dsL.getD i ⟨0, 0, 0⟩
        location := location
        lat := lat
        lon := lon
        t2m := (colsL.getD 0 []).getD i 0
        t2m_max := (colsL.getD 1 []).getD i 0
        t2m_min := (colsL.getD 2 []).getD i 0
        t2m_range := (colsL.getD 1 []).getD i 0 - (colsL.getD 2 []).getD i 0
        dewpoint := (colsL.getD 3 []).getD i 0
        rh2m := (colsL.getD 4 []).getD i 0
        ws10m := (colsL.getD 5 []).getD i 0
        wd10m := (colsL.getD 6 []).getD i 0
        ps := (colsL.getD 7 []).getD i 0
        allsky_sw_dwn := (colsL.getD 8 []).getD i 0
        allsky_lw_dwn := (colsL.getD 9 []).getD i 0
        prectotcorr := (colsL.getD 10 []).getD i 0
        day_of_year := dayOfYear (dsL.getD i ⟨0, 0, 0⟩) } }

/-- `fetch_nasa_power_data` from `src/utils/nasa_power_api.py`, applied to a
decoded response body `pb`.  The date list is taken from `T2M`'s keys
(line 63: `dates = list(param_block["T2M"].keys())`); the date column is
parsed first (the `"date"` entry of the dict literal is evaluated before the
parameter comprehensions), then each parameter column is read by date. -/
def fetch_nasa_power_data (lat lon : Rat) (location : String)
    (pb : ParamBlock) : Except FetchError Frame :=
  let dates := pb.t2m.map Prod.fst
  match parseDates dates with
  | .error e => .error e
  | .ok dsL =>
    match getColumnsL (paramsList pb) dates with
    | .error e => .error e
    | .ok colsL => .ok (buildFrame lat lon location dsL colsL)

/-! ## The forecast driver `src/03.02-model-prophet_test.py` -/

/-- One row of the training table `data/weather_train.parquet` as the driver
uses it: the `location` and `date` columns it filters and sorts on, and the
`t2m_max` column it forecasts.  The parquet is written by the fetcher, so the
`date` column already holds datetime values. -/
structure TrainRow where
  location : String
  date : Date
  t2m_max : Rat
deriving DecidableEq, Repr

/-- Chronological sort key of a date (the ordering `sort_values("date")`
uses on a datetime column). -/
def dateKey (d : Date) : Nat :=
  d.year * 10000 + d.month * 100 + d.day

/-- A loaded pandas table carries an integer index; `pd.read_parquet` gives
the default `RangeIndex` `0..n-1`. -/
def enumerate (l : List TrainRow) : List (Nat × TrainRow) :=
  (List.range l.length).zip l

/-- The driver's module state after line 29: the loaded table `train` and
the not-yet-assigned `df_train`. -/
structure DriverState where
  train : List (Nat × TrainRow)
  df_train : List (Nat × TrainRow)
deriving DecidableEq, Repr

/-- Load the training table (line 29, `pd.read_parquet`). -/
def initialState (train : List TrainRow) : DriverState :=
  { train := enumerate train, df_train := [] }

/-- `train[train["location"] == city]` (line 44): boolean-mask selection
returns a new frame of the matching rows, original index labels kept. -/
def stepFilter (city : String) (s : DriverState) : DriverState :=
  { s with df_train := s.train.filter fun q => q.2.location == city }

/-- `.sort_values("date")` (line 45): returns a new frame with the rows
rearranged into ascending date order (index labels travel with their rows). -/
def stepSort (s : DriverState) : DriverState :=
  { s with
    df_train := s.df_train.mergeSort fun a b => dateKey a.2.date ≤ dateKey b.2.date }

/-- `.reset_index(drop=True)` (line 46): returns a new frame with the same
rows re-labelled by the fresh `RangeIndex` `0..n-1`. -/
def stepReset (s : DriverState) : DriverState :=
  { s with df_train := (List.range s.df_train.length).zip (s.df_train.map Prod.snd) }

/-- Lines 52–53: `if not is_datetime64_any_dtype(df_train["date"]):
df_train["date"] = pd.to_datetime(df_train["date"])`.  The `date` column of
the parquet is already datetime-valued (the model's `Date` type), so the
guard is false and the conversion assignment does not run; either way only
the `df_train` binding could be affected. -/
def stepCoerce (s : DriverState) : DriverState :=
  { s with df_train := s.df_train }

/-- Lines 44–53 of the driver: filter to the city, sort by date, reset the
index, then ensure the date column is datetime. -/
def driverPrepare (train : List TrainRow) (city : String) : DriverState :=
  stepCoerce (stepReset (stepSort (stepFilter city (initialState train))))

/-! ### The Prophet model construction (lines 69–76) -/

/-- Names bound at the top level of the driver module before line 69 runs,
in statement order.  `from prophet import Prophet` (line 3) binds only
`Prophet`; the bare `import prophet` (line 2) is commented out and binds
nothing.  `import os, pathlib` binds both `os` and `pathlib`. -/
def boundNamesBeforeModel : List String :=
  ["Prophet", "pd", "plt", "np", "train_path", "train",
   "os", "pathlib", "p", "duckdb", "city", "df_train", "prophet_df"]

/-- A Python `NameError`, recording the unresolved name. -/
inductive PyError where
  | nameError (n : String)
deriving DecidableEq, Repr

/-- Resolve a bare name against the module namespace. -/
def evalName (env : List String) (n : String) : Except PyError Unit :=
  if n ∈ env then .ok () else .error (.nameError n)

/-- Seasonality configuration of a Prophet model. -/
structure ProphetConfig where
  yearly_seasonality : Bool
  weekly_seasonality : Bool
  daily_seasonality : Bool
deriving DecidableEq, Repr

/-- Line 69: `m = prophet.Prophet(yearly_seasonality=True,
weekly_seasonality=False, daily_seasonality=False)`.  Evaluating the
attribute access `prophet.Prophet` first resolves the bare name `prophet`
in the module namespace; only on success does the call build the
configuration from the keyword arguments. -/
def constructProphetModel : Except PyError ProphetConfig :=
  match evalName boundNamesBeforeModel "prophet" with
  | .error e => .error e
  | .ok _ =>
    .ok { yearly_seasonality := true, weekly_seasonality := false
          daily_seasonality := false }

/-! ### `make_future_dataframe` (line 79) -/

/-- `periods=365*2` at line 79. -/
def futurePeriods : Nat := 365 * 2

/-- `Prophet.make_future_dataframe(periods, freq="D")` with the default
`include_history=True`, at daily resolution with dates identified by day
number (`freq="D"` advances by one day per step): the model's history dates
(the distinct `ds` values, sorted ascending) followed by `periods`
consecutive days after the last history date. -/
def make_future_dataframe (history : List Nat) (periods : Nat) : List Nat :=
  let hist := history.dedup.mergeSort fun a b => a ≤ b
  hist ++ (List.range periods).map fun i => hist.foldl max 0 + (i + 1)

/-! ## Lemmas about the fetcher -/

lemma lookup_isSome_of_mem_keys {tbl : List (String × Rat)} {d : String}
    (h : d ∈ tbl.map Prod.fst) : (tbl.lookup d).isSome := by
  induction tbl with
  | nil => simp at h
  | cons q tbl ih =>
    simp only [List.map_cons, List.mem_cons] at h
    by_cases hd : d = q.1
    · simp [List.lookup, hd]
    · have : d ∈ tbl.map Prod.fst := by
        rcases h with h | h
        · exact absurd h hd
        · exact h
      simpa [List.lookup, beq_false_of_ne hd] using ih this

lemma getColumn_ok_length {tbl : List (String × Rat)} {p : String}
    {ds : List String} {vs : List Rat}
    (h : getColumn tbl p ds = .ok vs) : vs.length = ds.length := by
  induction ds generalizing vs with
  | nil =>
    simp only [getColumn, Except.ok.injEq] at h
    subst h; rfl
  | cons d ds ih =>
    simp only [getColumn] at h
    cases h1 : tbl.lookup d <;> simp only [h1] at h
    · simp at h
    · cases h2 : getColumn tbl p ds <;> simp only [h2] at h
      · simp at h
      · cases h
        simp [ih h2]

lemma getColumn_ok_forall {tbl : List (String × Rat)} {p : String}
    {ds : List String} {vs : List Rat}
    (h : getColumn tbl p ds = .ok vs) :
    ∀ d ∈ ds, (tbl.lookup d).isSome := by
  induction ds generalizing vs with
  | nil => simp
  | cons d ds ih =>
    simp only [getColumn] at h
    cases h1 : tbl.lookup d <;> simp only [h1] at h
    · simp at h
    · cases h2 : getColumn tbl p ds <;> simp only [h2] at h
      · simp at h
      · intro x hx
        rcases List.mem_cons.mp hx with rfl | hx
        · simp [h1]
        · exact ih h2 x hx

lemma getColumn_error_shape {tbl : List (String × Rat)} {p : String}
    {ds : List String} {e : FetchError}
    (h : getColumn tbl p ds = .error e) :
    ∃ d ∈ ds, tbl.lookup d = none ∧ e = .keyError p d := by
  induction ds with
  | nil => simp [getColumn] at h
  | cons d ds ih =>
    simp only [getColumn] at h
    cases h1 : tbl.lookup d <;> simp only [h1] at h
    · cases h
      exact ⟨d, by simp, h1, rfl⟩
    · cases h2 : getColumn tbl p ds <;> simp only [h2] at h
      · cases h
        rcases ih h2 with ⟨d', hd', hn, he⟩
        exact ⟨d', by simp [hd'], hn, he⟩
      · simp at h

lemma getColumn_ok_of_forall {tbl : List (String × Rat)} {p : String}
    {ds : List String} (h : ∀ d ∈ ds, (tbl.lookup d).isSome) :
    ∃ vs, getColumn tbl p ds = .ok vs := by
  induction ds with
  | nil => exact ⟨[], rfl⟩
  | cons d ds ih =>
    have hd := h d (by simp)
    rcases Option.isSome_iff_exists.mp hd with ⟨v, hv⟩
    rcases ih (fun x hx => h x (by simp [hx])) with ⟨vs, hvs⟩
    exact ⟨v :: vs, by simp [getColumn, hv, hvs]⟩

lemma getColumnsL_ok_forall {ps : List (String × List (String × Rat))}
    {ds : List String} {cs : List (List Rat)}
    (h : getColumnsL ps ds = .ok cs) :
    ∀ q ∈ ps, ∀ d ∈ ds, (q.2.lookup d).isSome := by
  induction ps generalizing cs with
  | nil => simp
  | cons q ps ih =>
    simp only [getColumnsL] at h
    cases h1 : getColumn q.2 q.1 ds <;> simp only [h1] at h
    · simp at h
    · cases h2 : getColumnsL ps ds <;> simp only [h2] at h
      · simp at h
      · intro q' hq' d hd
        rcases List.mem_cons.mp hq' with rfl | hq'
        · exact getColumn_ok_forall h1 d hd
        · exact ih h2 q' hq' d hd

lemma getColumnsL_error_shape {ps : List (String × List (String × Rat))}
    {ds : List String} {e : FetchError}
    (h : getColumnsL ps ds = .error e) :
    ∃ q ∈ ps, ∃ d ∈ ds, q.2.lookup d = none ∧ e = .keyError q.1 d := by
  induction ps with
  | nil => simp [getColumnsL] at h
  | cons q ps ih =>
    simp only [getColumnsL] at h
    cases h1 : getColumn q.2 q.1 ds <;> simp only [h1] at h
    · cases h
      rcases getColumn_error_shape h1 with ⟨d, hd, hn, he⟩
      exact ⟨q, by simp, d, hd, hn, he⟩
    · cases h2 : getColumnsL ps ds <;> simp only [h2] at h
      · cases h
        rcases ih h2 with ⟨q', hq', d, hd, hn, he⟩
        exact ⟨q', by simp [hq'], d, hd, hn, he⟩
      · simp at h

lemma getColumnsL_ok_of_forall {ps : List (String × List (String × Rat))}
    {ds : List String}
    (h : ∀ q ∈ ps, ∀ d ∈ ds, (q.2.lookup d).isSome) :
    ∃ cs, getColumnsL ps ds = .ok cs := by
  induction ps with
  | nil => exact ⟨[], rfl⟩
  | cons q ps ih =>
    rcases getColumn_ok_of_forall (p := q.1) (h q (by simp)) with ⟨vs, hvs⟩
    rcases ih (fun q' hq' => h q' (by simp [hq'])) with ⟨cs, hcs⟩
    exact ⟨vs :: cs, by simp [getColumnsL, hvs, hcs]⟩

lemma parseDate_valid {s : String} {dt : Date}
    (h : parseDate s = some dt) : validDate dt = true := by
  simp only [parseDate] at h
  split at h
  · split at h
    · cases h
      assumption
    · cases h
  · cases h

lemma parseDates_ok_length {ds : List String} {L : List Date}
    (h : parseDates ds = .ok L) : L.length = ds.length := by
  induction ds generalizing L with
  | nil =>
    simp only [parseDates, Except.ok.injEq] at h
    subst h; rfl
  | cons d ds ih =>
    simp only [parseDates] at h
    cases h1 : parseDate d <;> simp only [h1] at h
    · simp at h
    · cases h2 : parseDates ds <;> simp only [h2] at h
      · simp at h
      · cases h
        simp [ih h2]

lemma parseDates_ok_valid {ds : List String} {L : List Date}
    (h : parseDates ds = .ok L) : ∀ dt ∈ L, validDate dt = true := by
  induction ds generalizing L with
  | nil =>
    simp only [parseDates, Except.ok.injEq] at h
    subst h; simp
  | cons d ds ih =>
    simp only [parseDates] at h
    cases h1 : parseDate d <;> simp only [h1] at h
    · simp at h
    · cases h2 : parseDates ds <;> simp only [h2] at h
      · simp at h
      · cases h
        intro dt hdt
        rcases List.mem_cons.mp hdt with rfl | hdt
        · exact parseDate_valid h1
        · exact ih h2 dt hdt

lemma parseDates_ok_of_forall {ds : List String}
    (h : ∀ d ∈ ds, (parseDate d).isSome) :
    ∃ L, parseDates ds = .ok L := by
  induction ds with
  | nil => exact ⟨[], rfl⟩
  | cons d ds ih =>
    rcases Option.isSome_iff_exists.mp (h d (by simp)) with ⟨dt, hdt⟩
    rcases ih (fun x hx => h x (by simp [hx])) with ⟨L, hL⟩
    exact ⟨dt :: L, by simp [parseDates, hdt, hL]⟩

lemma fetch_ok_elim {lat lon : Rat} {loc : String} {pb : ParamBlock}
    {df : Frame} (h : fetch_nasa_power_data lat lon loc pb = .ok df) :
    ∃ dsL colsL,
      parseDates (pb.t2m.map Prod.fst) = .ok dsL ∧
      getColumnsL (paramsList pb) (pb.t2m.map Prod.fst) = .ok colsL ∧
      df = buildFrame lat lon loc dsL colsL := by
  simp only [fetch_nasa_power_data] at h
  cases h1 : parseDates (pb.t2m.map Prod.fst) <;> simp only [h1] at h
  · simp at h
  · cases h2 : getColumnsL (paramsList pb) (pb.t2m.map Prod.fst) <;>
      simp only [h2] at h
    · simp at h
    · cases h
      exact ⟨_, _, rfl, rfl, rfl⟩

/-! ## Day-of-year: the computed column agrees with the ordinal position -/

lemma daysInMonth_le31 : ∀ leap : Bool, ∀ m < 13, daysInMonth leap m ≤ 31 := by
  decide

set_option maxHeartbeats 2000000 in
set_option maxRecDepth 20000 in
lemma dayOfYearAux_eq_indexOf (leap : Bool) :
    ∀ m < 13, ∀ d < 32,
      (1 ≤ m ∧ 1 ≤ d ∧ d ≤ daysInMonth leap m) →
      dayOfYearAux leap m d = (monthDayList leap).indexOf (m, d) + 1 := by
  cases leap <;> decide

lemma dayOfYear_eq_ordinalDayInYear {dt : Date} (h : validDate dt = true) :
    dayOfYear dt = ordinalDayInYear dt := by
  obtain ⟨y, m, d⟩ := dt
  simp only [validDate, Bool.and_eq_true, decide_eq_true_eq] at h
  obtain ⟨⟨⟨h1, h2⟩, h3⟩, h4⟩ := h
  have hm : m < 13 := by omega
  have hd : d < 32 := by
    have := daysInMonth_le31 (isLeap y) m hm
    omega
  exact dayOfYearAux_eq_indexOf (isLeap y) m hm d hd ⟨h1, h3, h4⟩

/-! ## Concrete data for witnesses -/

/-- A small complete response block: two dates, all eleven parameters. -/
def samplePB : ParamBlock :=
  { t2m := [("20200101", 5), ("20200102", 6)]
    t2m_max := [("20200101", 10), ("20200102", 11)]
    t2m_min := [("20200101", 1), ("20200102", 2)]
    t2mdew := [("20200101", 3), ("20200102", 3)]
    rh2m := [("20200101", 80), ("20200102", 70)]
    ws10m := [("20200101", 4), ("20200102", 5)]
    wd10m := [("20200101", 180), ("20200102", 190)]
    ps := [("20200101", 98), ("20200102", 99)]
    allsky_sw_dwn := [("20200101", 12), ("20200102", 13)]
    allsky_lw_dwn := [("20200101", 30), ("20200102", 31)]
    prectotcorr := [("20200101", 0), ("20200102", 1)] }

/-- Like `samplePB` but `T2M_MAX` is missing the second `T2M` date. -/
def samplePBmissing : ParamBlock :=
  { samplePB with t2m_max := [("20200101", 10)] }

/-- An all-zero row, used as a `getD` default. -/
def row0 : Row :=
  { date := ⟨0, 0, 0⟩, location := "", lat := 0, lon := 0
    t2m := 0, t2m_max := 0, t2m_min := 0, t2m_range := 0
    dewpoint := 0, rh2m := 0, ws10m := 0, wd10m := 0, ps := 0
    allsky_sw_dwn := 0, allsky_lw_dwn := 0, prectotcorr := 0
    day_of_year := 0 }

/-- The frame the fetcher returns on `samplePB`. -/
def sampleFrame : Frame :=
  match fetch_nasa_power_data 35 (-85) "Chattanooga" samplePB with
  | .ok df => df
  | .error _ => { cols := [], rows := [] }

/-- The first row of `sampleFrame` is one of its rows. -/
lemma sampleFrame_first_mem : sampleFrame.rows.getD 0 row0 ∈ sampleFrame.rows := by
  rw [List.getD_eq_getElem _ _ (by decide : (0 : Nat) < sampleFrame.rows.length)]
  exact List.getElem_mem _

/-! ## The claims -/

/-- **C1**: For every fixed `(lat, lon, location)` input and every API
response whose `T2M` date keys are distinct (as Python dict keys are), a
table returned by `fetch_nasa_power_data` has one row per distinct date key
of the `T2M` mapping and exactly the seventeen documented columns in the
documented order. -/
theorem fetch_returns_schema_columns_and_row_per_date
    (lat lon : Rat) (loc : String) (pb : ParamBlock) (df : Frame)
    (hnd : (pb.t2m.map Prod.fst).Nodup)
    (hok : fetch_nasa_power_data lat lon loc pb = .ok df) :
    df.cols = ["date", "location", "lat", "lon", "t2m", "t2m_max", "t2m_min",
      "t2m_range", "dewpoint", "rh2m", "ws10m", "wd10m", "ps",
      "allsky_sw_dwn", "allsky_lw_dwn", "prectotcorr", "day_of_year"] ∧
    df.rows.length = (pb.t2m.map Prod.fst).dedup.length := by
  rcases fetch_ok_elim hok with ⟨dsL, colsL, hp, _, rfl⟩
  refine ⟨rfl, ?_⟩
  have h1 : dsL.length = (pb.t2m.map Prod.fst).length := parseDates_ok_length hp
  have h2 : (pb.t2m.map Prod.fst).dedup = pb.t2m.map Prod.fst :=
    List.dedup_eq_self.mpr hnd
  simp [buildFrame, h1, h2]

theorem fetch_returns_schema_columns_and_row_per_date_witness :
    sampleFrame.cols = ["date", "location", "lat", "lon", "t2m", "t2m_max",
      "t2m_min", "t2m_range", "dewpoint", "rh2m", "ws10m", "wd10m", "ps",
      "allsky_sw_dwn", "allsky_lw_dwn", "prectotcorr", "day_of_year"] ∧
    sampleFrame.rows.length = (samplePB.t2m.map Prod.fst).dedup.length :=
  fetch_returns_schema_columns_and_row_per_date 35 (-85) "Chattanooga"
    samplePB sampleFrame (by decide) (by rfl)

/-- **C3**: In every row of a table returned by `fetch_nasa_power_data`,
the `t2m_range` column equals `t2m_max` minus `t2m_min`. -/
theorem fetch_t2m_range_eq_max_sub_min
    (lat lon : Rat) (loc : String) (pb : ParamBlock) (df : Frame)
    (hok : fetch_nasa_power_data lat lon loc pb = .ok df) :
    ∀ r ∈ df.rows, r.t2m_range = r.t2m_max - r.t2m_min := by
  rcases fetch_ok_elim hok with ⟨dsL, colsL, _, _, rfl⟩
  intro r hr
  simp only [buildFrame, List.mem_map, List.mem_range] at hr
  rcases hr with ⟨i, _, rfl⟩
  rfl

theorem fetch_t2m_range_eq_max_sub_min_witness :
    (sampleFrame.rows.getD 0 row0).t2m_range =
      (sampleFrame.rows.getD 0 row0).t2m_max -
        (sampleFrame.rows.getD 0 row0).t2m_min :=
  fetch_t2m_range_eq_max_sub_min 35 (-85) "Chattanooga" samplePB sampleFrame
    (by rfl) _ sampleFrame_first_mem

/-- **C4**: In every row of a table returned by `fetch_nasa_power_data`,
the `day_of_year` column equals the 1-indexed ordinal day of the row's date
within its calendar year (position in the chronological list of the year's
days: 1 for Jan 1, and 365 or 366 for Dec 31 by leap year). -/
theorem fetch_day_of_year_ordinal
    (lat lon : Rat) (loc : String) (pb : ParamBlock) (df : Frame)
    (hok : fetch_nasa_power_data lat lon loc pb = .ok df) :
    ∀ r ∈ df.rows, r.day_of_year = ordinalDayInYear r.date := by
  rcases fetch_ok_elim hok with ⟨dsL, colsL, hp, _, rfl⟩
  intro r hr
  simp only [buildFrame, List.mem_map, List.mem_range] at hr
  rcases hr with ⟨i, hi, rfl⟩
  have hmem : dsL.getD i ⟨0, 0, 0⟩ ∈ dsL := by
    rw [List.getD_eq_getElem _ _ hi]
    exact List.getElem_mem _
  exact dayOfYear_eq_ordinalDayInYear (parseDates_ok_valid hp _ hmem)

theorem fetch_day_of_year_ordinal_witness :
    (sampleFrame.rows.getD 0 row0).day_of_year =
      ordinalDayInYear (sampleFrame.rows.getD 0 row0).date :=
  fetch_day_of_year_ordinal 35 (-85) "Chattanooga" samplePB sampleFrame
    (by rfl) _ sampleFrame_first_mem

/-- **C5**: In every row of a table returned by a single call to
`fetch_nasa_power_data`, the `location`, `lat`, and `lon` columns hold the
values of the call's `location`, `lat`, and `lon` arguments (hence are
constant across the rows). -/
theorem fetch_metadata_columns_constant
    (lat lon : Rat) (loc : String) (pb : ParamBlock) (df : Frame)
    (hok : fetch_nasa_power_data lat lon loc pb = .ok df) :
    ∀ r ∈ df.rows, r.location = loc ∧ r.lat = lat ∧ r.lon = lon := by
  rcases fetch_ok_elim hok with ⟨dsL, colsL, _, _, rfl⟩
  intro r hr
  simp only [buildFrame, List.mem_map, List.mem_range] at hr
  rcases hr with ⟨i, _, rfl⟩
  exact ⟨rfl, rfl, rfl⟩

theorem fetch_metadata_columns_constant_witness :
    (sampleFrame.rows.getD 0 row0).location = "Chattanooga" ∧
    (sampleFrame.rows.getD 0 row0).lat = 35 ∧
    (sampleFrame.rows.getD 0 row0).lon = -85 :=
  fetch_metadata_columns_constant 35 (-85) "Chattanooga" samplePB sampleFrame
    (by rfl) _ sampleFrame_first_mem

/-- **C6**: `fetch_nasa_power_data` takes its date list from the `T2M`
keys.  Given a parseable date list: if any of the other ten parameter
mappings lacks an entry for some `T2M` date, the call fails with a
key-lookup error; and when every parameter has an entry for every `T2M`
date, no key-lookup error is raised. -/
theorem fetch_key_error_characterization
    (lat lon : Rat) (loc : String) (pb : ParamBlock)
    (hparse : ∀ d ∈ pb.t2m.map Prod.fst, (parseDate d).isSome) :
    ((∃ q ∈ otherParams pb, ∃ d ∈ pb.t2m.map Prod.fst, q.2.lookup d = none) →
      ∃ p d, fetch_nasa_power_data lat lon loc pb = .error (.keyError p d)) ∧
    ((∀ q ∈ otherParams pb, ∀ d ∈ pb.t2m.map Prod.fst, (q.2.lookup d).isSome) →
      ∀ p d, fetch_nasa_power_data lat lon loc pb ≠ .error (.keyError p d)) := by
  rcases parseDates_ok_of_forall hparse with ⟨dsL, hp⟩
  constructor
  · intro hmiss
    cases hgc : getColumnsL (paramsList pb) (pb.t2m.map Prod.fst) with
    | error e =>
      rcases getColumnsL_error_shape hgc with ⟨q, _, d, _, _, rfl⟩
      refine ⟨q.1, d, ?_⟩
      simp [fetch_nasa_power_data, hp, hgc]
    | ok cs =>
      exfalso
      rcases hmiss with ⟨q, hq, d, hd, hnone⟩
      have hsome := getColumnsL_ok_forall hgc q (List.mem_cons_of_mem _ hq) d hd
      simp [hnone] at hsome
  · intro hcomp p d hEq
    have hall : ∀ q ∈ paramsList pb, ∀ d' ∈ pb.t2m.map Prod.fst,
        (q.2.lookup d').isSome := by
      intro q hq
      rcases List.mem_cons.mp hq with rfl | hq'
      · intro d' hd'
        exact lookup_isSome_of_mem_keys hd'
      · exact hcomp q hq'
    rcases getColumnsL_ok_of_forall hall with ⟨cs, hgc⟩
    simp [fetch_nasa_power_data, hp, hgc] at hEq

theorem fetch_key_error_characterization_witness :
    (∃ p d, fetch_nasa_power_data 35 (-85) "Chattanooga" samplePBmissing =
        .error (.keyError p d)) ∧
    fetch_nasa_power_data 35 (-85) "Chattanooga" samplePB ≠
      .error (.keyError "T2M_MAX" "20200102") :=
  ⟨(fetch_key_error_characterization 35 (-85) "Chattanooga" samplePBmissing
      (by decide)).1 (by decide),
   (fetch_key_error_characterization 35 (-85) "Chattanooga" samplePB
      (by decide)).2 (by decide) "T2M_MAX" "20200102"⟩

/-- **C9**: the reshaping is deterministic: two runs given equal `lat`,
`lon`, `location` arguments and an equal decoded response body return
identical tables (same rows, values, column names, and order). -/
theorem fetch_deterministic
    (lat₁ lon₁ : Rat) (loc₁ : String) (pb₁ : ParamBlock)
    (lat₂ lon₂ : Rat) (loc₂ : String) (pb₂ : ParamBlock)
    (h1 : lat₁ = lat₂) (h2 : lon₁ = lon₂) (h3 : loc₁ = loc₂)
    (h4 : pb₁ = pb₂) :
    fetch_nasa_power_data lat₁ lon₁ loc₁ pb₁ =
      fetch_nasa_power_data lat₂ lon₂ loc₂ pb₂ := by
  subst h1; subst h2; subst h3; subst h4; rfl

theorem fetch_deterministic_witness :
    fetch_nasa_power_data 35 (-85) "Chattanooga" samplePB =
      fetch_nasa_power_data 35 (-85) "Chattanooga" samplePB :=
  fetch_deterministic 35 (-85) "Chattanooga" samplePB
    35 (-85) "Chattanooga" samplePB rfl rfl rfl rfl

/-- **C7**: the prepared series `df_train` holds exactly the rows of the
loaded table whose `location` equals the requested city, in ascending date
order, re-indexed `0..n-1`. -/
theorem driver_df_train_filtered_sorted_reindexed
    (train : List TrainRow) (city : String) :
    ((driverPrepare train city).df_train.map Prod.snd).Perm
        (train.filter fun r => r.location == city) ∧
    ((driverPrepare train city).df_train.map Prod.snd).Pairwise
        (fun a b => dateKey a.date ≤ dateKey b.date) ∧
    (driverPrepare train city).df_train.map Prod.fst =
      List.range (driverPrepare train city).df_train.length := by
  let le : (Nat × TrainRow) → (Nat × TrainRow) → Bool :=
    fun a b => dateKey a.2.date ≤ dateKey b.2.date
  let F := (enumerate train).filter fun q => q.2.location == city
  let S := F.mergeSort le
  have hdf : (driverPrepare train city).df_train =
      (List.range S.length).zip (S.map Prod.snd) := rfl
  have hmapsnd : ((List.range S.length).zip (S.map Prod.snd)).map Prod.snd =
      S.map Prod.snd :=
    List.map_snd_zip _ _ (by simp)
  have hsnd_train : (enumerate train).map Prod.snd = train :=
    List.map_snd_zip _ _ (by simp [enumerate])
  have hFsnd : F.map Prod.snd = train.filter fun r => r.location == city := by
    show ((enumerate train).filter fun q => q.2.location == city).map Prod.snd = _
    rw [show (fun q : Nat × TrainRow => q.2.location == city) =
        ((fun r : TrainRow => r.location == city) ∘ Prod.snd) from rfl,
      ← List.filter_map, hsnd_train]
  refine ⟨?_, ?_, ?_⟩
  · rw [hdf, hmapsnd]
    have hperm : (S.map Prod.snd).Perm (F.map Prod.snd) :=
      (List.mergeSort_perm F le).map Prod.snd
    rw [hFsnd] at hperm
    exact hperm
  · rw [hdf, hmapsnd]
    have htrans : ∀ a b c, le a b → le b c → le a c := by
      intro a b c hab hbc
      have g1 : dateKey a.2.date ≤ dateKey b.2.date := of_decide_eq_true hab
      have g2 : dateKey b.2.date ≤ dateKey c.2.date := of_decide_eq_true hbc
      exact decide_eq_true (le_trans g1 g2)
    have htotal : ∀ a b, le a b || le b a := by
      intro a b
      rcases Nat.le_total (dateKey a.2.date) (dateKey b.2.date) with h | h
      · have hh : le a b = true := decide_eq_true h
        simp [hh]
      · have hh : le b a = true := decide_eq_true h
        simp [hh]
    have hs := List.sorted_mergeSort htrans htotal F
    rw [List.pairwise_map]
    exact hs.imp fun h => of_decide_eq_true h
  · rw [hdf, List.map_fst_zip _ _ (by simp)]
    congr 1
    simp

/-- **C8**: with `periods = 365*2` as at line 79 and a duplicate-free daily
history, the future index the driver builds spans the history plus exactly
730 additional daily steps: its length is the input series length plus
730. -/
theorem make_future_dataframe_adds_730
    (history : List Nat) (h : history.Nodup) :
    (make_future_dataframe history futurePeriods).length =
      history.length + 730 := by
  simp [make_future_dataframe, futurePeriods, List.dedup_eq_self.mpr h]

theorem make_future_dataframe_adds_730_witness :
    (make_future_dataframe [0, 1, 2] futurePeriods).length =
      [0, 1, 2].length + 730 :=
  make_future_dataframe_adds_730 [0, 1, 2] (by decide)

/-- **C10**: the driver never modifies the loaded table `train`: the
location filter, the date sort, the index reset, and the date-coercion
step each leave the `train` binding untouched (they only rebind
`df_train`), so after the whole preparation `train` still holds the table
as loaded. -/
theorem driver_preserves_train (train : List TrainRow) (city : String)
    (s : DriverState) :
    (stepFilter city s).train = s.train ∧
    (stepSort s).train = s.train ∧
    (stepReset s).train = s.train ∧
    (stepCoerce s).train = s.train ∧
    (driverPrepare train city).train = (initialState train).train :=
  ⟨rfl, rfl, rfl, rfl, rfl⟩

/-- **C2** (code bug): line 69 refers to the module `prophet` by name, but
only the class `Prophet` was bound (`from prophet import Prophet`; the bare
`import prophet` on line 2 is commented out), so the model-construction
step raises `NameError: name 'prophet' is not defined` instead of
completing the configure-and-fit without error. -/
theorem prophet_construction_raises_name_error :
    constructProphetModel = .error (.nameError "prophet") := by
  rfl

end WeatherModel
